import Mathlib

/-!
# Kognit acquisition-and-normalization core: a shallow embedding

This file embeds the core of the Kognit repository (the GitHub profile
harvester, the per-repository detail fetcher, the markup-extraction helpers
and the context normalizer) as executable Lean definitions, and proves or
refutes the frozen specification claims about them.

Conventions of the embedding:
* Python `None` / missing dictionary keys are `Option.none`; Python string
  formatting of `None` is the literal `"None"` (see `pyStr`).
* Network calls and markup-selector queries are modelled by environment
  records carrying the result each call/query would produce; an `Except`
  value models a call that raises.
* Python machine floats are modelled by `PyFloat`: exact rationals for
  finite values plus infinity and NaN markers.  Binary64 rounding is not
  modelled; no claim below depends on a rounding boundary.
* Exceptions relevant to the claims are the constructors of `PyExn`.
-/

set_option maxRecDepth 8192

deriving instance DecidableEq for Except

/-- The Python exception classes that the embedded code can raise. -/
inductive PyExn where
  | valueError
  | overflowError
  | attributeError
  | typeError
  deriving DecidableEq, Repr

/-- Python `str(x)` for an optional string: `None` prints as `"None"`.
This is how a CPython f-string renders a missing field. -/
def pyStr : Option String → String
  | none => "None"
  | some s => s

/-- Python `str(x)` for an optional integer: `None` prints as `"None"`. -/
def pyIntStr : Option Int → String
  | none => "None"
  | some n => toString n

/-- Python `x or default` for an optional string (`""` is falsy). -/
def pyOr (o : Option String) (d : String) : String :=
  match o with
  | none => d
  | some s => if s = "" then d else s

/-- Python whitespace characters stripped by `str.strip()` (ASCII range). -/
def isPyWs (c : Char) : Bool :=
  c = ' ' || c = '\t' || c = '\n' || c = '\r' || c = '\x0b' || c = '\x0c'

/-- Python `str.strip()` (for ASCII input). -/
def pyStrip (s : String) : String :=
  ⟨((s.data.dropWhile isPyWs).reverse.dropWhile isPyWs).reverse⟩

/-- Python `str.lower()` (for ASCII input). -/
def pyLower (s : String) : String :=
  ⟨s.data.map Char.toLower⟩

/-- Python `s.replace(c, "")` for a one-character pattern. -/
def pyRemoveChar (c : Char) (s : String) : String :=
  ⟨s.data.filter (fun d => d ≠ c)⟩

/-- Python `c in s` for a one-character needle. -/
def pyHasChar (c : Char) (s : String) : Bool :=
  s.data.contains c

/-! ## Python numeric-string conversions

`GithubProbe._parse_count` feeds arbitrary page text to `float(...)` and
`int(...)`.  We embed CPython's `float` and `int` string conversions for
ASCII input: optional sign, `inf`/`infinity`/`nan` keywords, decimal
mantissa with optional fraction and exponent, and underscores allowed
between digits.  Finite values are kept as exact rationals. -/

/-- An exact (unnormalized) fraction: numerator over a positive
power-of-ten style denominator.  Used instead of `ℚ` so that every
operation reduces inside the kernel. -/
structure PyRat where
  num : Int
  den : Nat
  deriving DecidableEq, Repr

/-- A CPython float value as relevant here.  Finite values are exact
fractions; binary64 rounding is not modelled. -/
inductive PyFloat where
  | finite (q : PyRat)
  | inf (neg : Bool)
  | nan
  deriving DecidableEq, Repr

/-- Split a maximal run of digit/underscore characters off the front. -/
def digitRun : List Char → List Char × List Char
  | [] => ([], [])
  | c :: cs =>
    if c.isDigit || c = '_' then
      let (r, rest) := digitRun cs
      (c :: r, rest)
    else ([], c :: cs)

/-- Helper for `runOk`: `prev` is the previous character of the run. -/
def runOkAux : Char → List Char → Bool
  | prev, [] => prev.isDigit
  | prev, c :: cs => if c = '_' then prev.isDigit && runOkAux c cs else runOkAux c cs

/-- A digit run is valid when nonempty, it starts and ends with a digit,
and every underscore sits between two digits (CPython PEP 515 rule). -/
def runOk : List Char → Bool
  | [] => false
  | c :: cs => c.isDigit && runOkAux c cs

/-- The digits of a run with the underscores removed. -/
def runDigits (l : List Char) : List Char :=
  l.filter (fun c => c ≠ '_')

/-- Numeric value of a list of decimal digits. -/
def natOfDigits (l : List Char) : Nat :=
  l.foldl (fun acc c => acc * 10 + (c.toNat - '0'.toNat)) 0

/-- Optional leading sign; returns (isNegative, rest). -/
def signOf : List Char → Bool × List Char
  | '+' :: r => (false, r)
  | '-' :: r => (true, r)
  | s => (false, s)

/-- Scale a fraction by `10 ^ z` for a possibly negative exponent. -/
def scale10 (q : PyRat) (z : Int) : PyRat :=
  if 0 ≤ z then ⟨q.num * (10 : Int) ^ z.toNat, q.den⟩
  else ⟨q.num, q.den * 10 ^ (-z).toNat⟩

/-- Mantissa value from integer-part digits and fraction digits. -/
def mantissaVal (ir fr : List Char) : PyRat :=
  ⟨(natOfDigits (runDigits ir ++ runDigits fr) : Int), 10 ^ (runDigits fr).length⟩

/-- Parse the optional exponent part and finish the decimal literal. -/
def parseExpPart (ir fr rest : List Char) : Option PyRat :=
  match rest with
  | [] => some (mantissaVal ir fr)
  | 'e' :: r =>
    let (eneg, r2) := signOf r
    let (er, r3) := digitRun r2
    if runOk er ∧ r3 = [] then
      some (scale10 (mantissaVal ir fr) ((if eneg then -1 else 1) * (natOfDigits (runDigits er) : Int)))
    else none
  | _ => none

/-- Parse a (lowercased, unsigned) decimal float literal to a fraction. -/
def parseDec (s : List Char) : Option PyRat :=
  let (ir, r1) := digitRun s
  if ir ≠ [] ∧ ¬ runOk ir then none
  else
    match r1 with
    | '.' :: r2 =>
      let (fr, r3) := digitRun r2
      if fr ≠ [] ∧ ¬ runOk fr then none
      else if ir = [] ∧ fr = [] then none
      else parseExpPart ir fr r3
    | _ => if ir = [] then none else parseExpPart ir [] r1

/-- Whether `|q| ≥ 2 ^ 1024`: such values become infinity in CPython's
string-to-float conversion; `2 ^ 1024` stands in for the exact binary64
rounding boundary (no claim sits near it). -/
def overflowsFloat (q : PyRat) : Bool :=
  2 ^ 1024 * q.den ≤ q.num.natAbs

/-- CPython `float(s)` on a trimmed, lowercased character list. -/
def floatOfChars (s : List Char) : Option PyFloat :=
  let (neg, s1) := signOf s
  if s1 = "inf".data ∨ s1 = "infinity".data then some (.inf neg)
  else if s1 = "nan".data then some .nan
  else
    match parseDec s1 with
    | none => none
    | some q =>
      if overflowsFloat q then some (.inf neg)
      else some (.finite (if neg then ⟨-q.num, q.den⟩ else q))

/-- CPython `float(s)`: strips whitespace, case-insensitive; `ValueError`
on failure. -/
def pyFloat (s : String) : Except PyExn PyFloat :=
  match floatOfChars (pyLower (pyStrip s)).data with
  | some f => .ok f
  | none => .error .valueError

/-- CPython `int(s)` for a base-10 string: sign, digits, underscores. -/
def intOfChars (s : List Char) : Option Int :=
  let (neg, s1) := signOf s
  let (run, rest) := digitRun s1
  if runOk run ∧ rest = [] then
    some ((if neg then -1 else 1) * (natOfDigits (runDigits run) : Int))
  else none

/-- CPython `int(s)`; `ValueError` on failure. -/
def pyInt (s : String) : Except PyExn Int :=
  match intOfChars (pyStrip s).data with
  | some n => .ok n
  | none => .error .valueError

/-- CPython `int(f)` for a float: truncates toward zero; `OverflowError`
on an infinity, `ValueError` on NaN. -/
def pyIntOfFloat : PyFloat → Except PyExn Int
  | .finite q => .ok (q.num.tdiv q.den)
  | .inf _ => .error .overflowError
  | .nan => .error .valueError

/-- Multiply a float by a positive integer constant. -/
def floatMulNat (f : PyFloat) (n : Nat) : PyFloat :=
  match f with
  | .finite q => .finite ⟨q.num * n, q.den⟩
  | .inf b => .inf b
  | .nan => .nan

/-- `GithubProbe._parse_count` (src/kognit/probes/github.py:531-540):
lowercase, strip, drop commas; a string containing `k` (resp. `m`) is
float-parsed without it and scaled by 1000 (resp. 1000000); otherwise
`int(...)`.  Only `ValueError` is caught (yielding 0); any other
exception — notably `OverflowError` from `int(inf)` — propagates. -/
def parse_count_try (text : String) : Except PyExn Int :=
  if pyHasChar 'k' text then
    match pyFloat (pyRemoveChar 'k' text) with
    | .ok f => pyIntOfFloat (floatMulNat f 1000)
    | .error e => .error e
  else if pyHasChar 'm' text then
    match pyFloat (pyRemoveChar 'm' text) with
    | .ok f => pyIntOfFloat (floatMulNat f 1000000)
    | .error e => .error e
  else pyInt text

/-- The whole `_parse_count`: normalized text, try body, and the
`except ValueError: return 0` handler. -/
def parse_count (s : String) : Except PyExn Int :=
  match parse_count_try (pyRemoveChar ',' (pyStrip (pyLower s))) with
  | .error .valueError => .ok 0
  | other => other

example : parse_count "1.2k" = .ok 1200 := by decide
example : parse_count "3,400" = .ok 3400 := by decide
example : parse_count "n/a" = .ok 0 := by decide
example : parse_count "3m" = .ok 3000000 := by decide

/-- `float(...)` can only fail with `ValueError`. -/
theorem pyFloat_error_eq (s : String) (e : PyExn) (h : pyFloat s = .error e) :
    e = .valueError := by
  unfold pyFloat at h
  split at h
  · exact absurd h (by simp)
  · exact (Except.error.injEq _ _).mp h.symm

/-- `int(...)` can only fail with `ValueError`. -/
theorem pyInt_error_eq (s : String) (e : PyExn) (h : pyInt s = .error e) :
    e = .valueError := by
  unfold pyInt at h
  split at h
  · exact absurd h (by simp)
  · exact (Except.error.injEq _ _).mp h.symm

/-- `int(float)` fails only with `OverflowError` (infinity) or
`ValueError` (NaN). -/
theorem pyIntOfFloat_error_eq (f : PyFloat) (e : PyExn)
    (h : pyIntOfFloat f = .error e) : e = .overflowError ∨ e = .valueError := by
  cases f with
  | finite q => exact absurd h (by simp [pyIntOfFloat])
  | inf b => exact Or.inl ((Except.error.injEq _ _).mp h.symm)
  | nan => exact Or.inr ((Except.error.injEq _ _).mp h.symm)

/-- The try body of `_parse_count` fails only with `ValueError` or
`OverflowError`. -/
theorem parse_count_try_error_eq (t : String) (e : PyExn)
    (h : parse_count_try t = .error e) : e = .valueError ∨ e = .overflowError := by
  unfold parse_count_try at h
  split at h
  · cases hf : pyFloat (pyRemoveChar 'k' t) with
    | ok f =>
      rw [hf] at h
      rcases pyIntOfFloat_error_eq _ _ h with h1 | h1
      · exact Or.inr h1
      · exact Or.inl h1
    | error e2 =>
      rw [hf] at h
      have h2 := pyFloat_error_eq _ _ hf
      cases h
      exact Or.inl h2
  · split at h
    · cases hf : pyFloat (pyRemoveChar 'm' t) with
      | ok f =>
        rw [hf] at h
        rcases pyIntOfFloat_error_eq _ _ h with h1 | h1
        · exact Or.inr h1
        · exact Or.inl h1
      | error e2 =>
        rw [hf] at h
        have h2 := pyFloat_error_eq _ _ hf
        cases h
        exact Or.inl h2
    · exact Or.inl (pyInt_error_eq _ _ h)

/-- The only exception that can escape `_parse_count` is `OverflowError`. -/
theorem parse_count_only_overflow (s : String) :
    (parse_count s).isOk = true ∨ parse_count s = .error .overflowError := by
  unfold parse_count
  cases h : parse_count_try (pyRemoveChar ',' (pyStrip (pyLower s))) with
  | ok n => exact Or.inl rfl
  | error e =>
    rcases parse_count_try_error_eq _ _ h with h1 | h1 <;> subst h1
    · exact Or.inl rfl
    · exact Or.inr rfl

/-- C5, counterexample: on the input `"infk"` — which is not parsable as a
magnitude — `_parse_count` does not return 0: `float("inf")` succeeds, and
`int(inf * 1000)` raises `OverflowError`, which the `except ValueError`
handler does not catch, so the exception propagates.  This refutes the
claim that every unparsable input yields 0 without raising. -/
theorem C5_counterexample_infk : parse_count "infk" = .error .overflowError := by
  decide

/-- C5, amended: `_parse_count` maps `"1.2k"` to 1200 and `"3,400"` to
3400; on an unparsable input whose conversion failure is a `ValueError`
(e.g. `"n/a"`) it returns 0 without raising; the single exception class
that can escape is `OverflowError`, raised when the k/m-stripped text
float-parses to an infinity (e.g. `"infk"`). -/
theorem C5_extract_count_amended :
    parse_count "1.2k" = .ok 1200 ∧ parse_count "3,400" = .ok 3400 ∧
    parse_count "n/a" = .ok 0 ∧
    ∀ s : String, (parse_count s).isOk = true ∨ parse_count s = .error .overflowError :=
  ⟨by decide, by decide, by decide, parse_count_only_overflow⟩

/-! ## `GithubProbe.fetch_profile`: dual-mode acquisition
(src/kognit/probes/github.py:165-215)

Network effects are modelled by an environment carrying the outcome each
call would have.  A `PyResult.exn` models a raised exception carrying
`str(e)`. -/

/-- Outcome of a Python call: a value, or a raised exception message. -/
inductive PyResult (α : Type) where
  | ok (a : α)
  | exn (msg : String)
  deriving DecidableEq, Repr

/-- Environment of one `_scrape_via_html` invocation: whether the initial
concurrent fetch of the profile page and stars tab raises, the status code
of the profile landing page, and the outcome of the remaining harvest. -/
structure ScrapeEnv (α : Type) where
  gatherExn : Option String
  mainStatus : Nat
  rest : PyResult α
  deriving Repr

/-- `GithubProbe._scrape_via_html`, at the granularity of its failure
policy: the initial gather may raise; a 404 on the profile landing page
raises `"User not found"`; otherwise the harvest's own outcome stands. -/
def scrape_via_html {α : Type} (env : ScrapeEnv α) : PyResult α :=
  match env.gatherExn with
  | some e => .exn e
  | none => if env.mainStatus = 404 then .exn "User not found" else env.rest

/-- Environment of one `fetch_profile` invocation. -/
structure ProbeEnv (α : Type) where
  api : PyResult α
  scrape : ScrapeEnv α
  deriving Repr

/-- Python truthiness of `self.token` (an empty-string token is falsy). -/
def pyTruthyStr : Option String → Bool
  | none => false
  | some s => !(s == "")

/-- `GithubProbe.fetch_profile` (src/kognit/probes/github.py:165-175):
with a truthy token and browser scraping not forced, try the GraphQL API
and fall back to scraping on any exception; otherwise scrape directly.
Exceptions raised by the scrape (including the 404 hard failure) are not
caught here and propagate to the caller. -/
def fetch_profile {α : Type} (token : Option String) (use_browser_scraping : Bool)
    (env : ProbeEnv α) : PyResult α :=
  if pyTruthyStr token && !use_browser_scraping then
    match env.api with
    | .ok d => .ok d
    | .exn _ => scrape_via_html env.scrape
  else scrape_via_html env.scrape

/-- C2: mode-selection and failure policy of the profile fetch.  With a
credential and browser mode not forced, the structured-query mode is
attempted first (its success is returned) and any exception it raises
degrades to page scraping; without a credential, or with browser mode
forced, page scraping is used directly; and in page-scraping mode a 404
on the profile landing page raises `"User not found"` to the caller. -/
theorem C2_fetch_profile_mode_policy {α : Type} :
    (∀ (t : String) (env : ProbeEnv α) (d : α), t ≠ "" → env.api = .ok d →
      fetch_profile (some t) false env = .ok d) ∧
    (∀ (t : String) (env : ProbeEnv α) (e : String), t ≠ "" → env.api = .exn e →
      fetch_profile (some t) false env = scrape_via_html env.scrape) ∧
    (∀ (tok : Option String) (b : Bool) (env : ProbeEnv α),
      pyTruthyStr tok = false →
      fetch_profile tok b env = scrape_via_html env.scrape) ∧
    (∀ (tok : Option String) (env : ProbeEnv α),
      fetch_profile tok true env = scrape_via_html env.scrape) ∧
    (∀ (env : ScrapeEnv α), env.gatherExn = none → env.mainStatus = 404 →
      scrape_via_html env = .exn "User not found") := by
  refine ⟨?_, ?_, ?_, ?_, ?_⟩
  · intro t env d ht hapi
    simp [fetch_profile, pyTruthyStr, ht, hapi]
  · intro t env e ht hapi
    simp [fetch_profile, pyTruthyStr, ht, hapi]
  · intro tok b env htok
    simp [fetch_profile, htok]
  · intro tok env
    simp [fetch_profile]
  · intro env hg h404
    simp [scrape_via_html, hg, h404]

/-- Witness for C2 at concrete inputs: a probe with token `"t"`, an API
that raises, and a scrape whose landing page is a 404 propagates
`"User not found"`. -/
theorem C2_fetch_profile_mode_policy_witness :
    fetch_profile (α := Nat) (some "t") false
        ⟨.exn "GitHub API Error: 500", ⟨none, 404, .ok 7⟩⟩ = .exn "User not found" ∧
    fetch_profile (α := Nat) (some "t") false
        ⟨.ok 7, ⟨none, 200, .ok 9⟩⟩ = .ok 7 ∧
    fetch_profile (α := Nat) none false ⟨.ok 7, ⟨none, 200, .ok 9⟩⟩ = .ok 9 ∧
    fetch_profile (α := Nat) (some "t") true ⟨.ok 7, ⟨none, 200, .ok 9⟩⟩ = .ok 9 := by
  have h := C2_fetch_profile_mode_policy (α := Nat)
  refine ⟨?_, ?_, ?_, ?_⟩
  · rw [h.2.1 "t" ⟨.exn "GitHub API Error: 500", ⟨none, 404, .ok 7⟩⟩
        "GitHub API Error: 500" (by decide) rfl]
    exact h.2.2.2.2 ⟨none, 404, .ok 7⟩ rfl rfl
  · exact h.1 "t" ⟨.ok 7, ⟨none, 200, .ok 9⟩⟩ 7 (by decide) rfl
  · rw [h.2.2.1 none false ⟨.ok 7, ⟨none, 200, .ok 9⟩⟩ rfl]; rfl
  · rw [h.2.2.2.1 (some "t") ⟨.ok 7, ⟨none, 200, .ok 9⟩⟩]; rfl

/-! ## The context normalizer (src/kognit/probes/normalizer.py)

The raw payload is the nested dictionary shape produced by either
acquisition mode.  Leaves are `Option`-typed: `none` is a missing key or a
JSON `null`.  Or-chains such as
`(item.get("tree") or {}).get("entries") or []` are collapsed into the
resulting list, and the three-step
`defaultBranchRef or {} / target or {} / history or {}` chain into
`Option History`, with `none` covering every falsy link of the chain
(each collapse is behaviour-preserving: all falsy intermediate values
yield the same final lookups). -/

/-- A commit node of `history.nodes`; the list may contain nulls. -/
structure CommitNode where
  message : Option String
  deriving DecidableEq, Repr

/-- The `history` dictionary: `totalCount` (`none` = key absent, the
lookup defaults to 0) and `nodes` (`or []` collapsed). -/
structure History where
  totalCount : Option Int
  nodes : List (Option CommitNode)
  deriving DecidableEq, Repr

/-- A root tree entry; both paths of the harvester always populate
`name` and `type` (accessed with brackets in the source). -/
structure TreeEntry where
  name : String
  etype : String
  deriving DecidableEq, Repr

/-- A language node; `name` is `none` when the `'name'` key is absent. -/
structure LangNode where
  name : Option String
  deriving DecidableEq, Repr

/-- A pinned item node.  `stargazerCount = none` models the
`'stargazerCount' in item` key test failing.  `primaryLanguage = some l`
models a truthy `{'name': l}` dictionary; `none` models a falsy value.
`readme = some (some t)` is `{'text': t}`; `some none` a dictionary with
no truthy text; `none` an absent/null/non-dict value. -/
structure PinnedItem where
  name : Option String
  description : Option String
  url : Option String
  stargazerCount : Option Int
  primaryLanguage : Option String
  branch : Option History
  tree : List (Option TreeEntry)
  readme : Option (Option String)
  deriving DecidableEq, Repr

/-- An owned repository node (same conventions as `PinnedItem`). -/
structure Repo where
  name : Option String
  description : Option String
  pushedAt : Option String
  stargazerCount : Option Int
  langNodes : List (Option LangNode)
  branch : Option History
  tree : List (Option TreeEntry)
  readme : Option (Option String)
  deriving DecidableEq, Repr

/-- `contributionsCollection`; `none` fields are absent keys. -/
structure ContribsColl where
  calendarTotal : Option Int
  commitTotal : Option Int
  prTotal : Option Int
  issueTotal : Option Int
  repoTotal : Option Int
  deriving DecidableEq, Repr

/-- The `user` dictionary.  `followersTotal` collapses
`user.get('followers', {}).get('totalCount')`; `pinned` collapses
`(user.get("pinnedItems") or {}).get("nodes") or []`; `repos` collapses
`(user.get("repositories") or {}).get("nodes") or []`. -/
structure GhUser where
  name : Option String
  login : Option String
  avatarUrl : Option String
  bio : Option String
  company : Option String
  location : Option String
  websiteUrl : Option String
  twitterUsername : Option String
  followersTotal : Option Int
  contribs : Option ContribsColl
  pinned : List (Option PinnedItem)
  repos : List (Option Repo)
  deriving DecidableEq, Repr

/-- Python truthiness of an optional integer (`None` and `0` are falsy). -/
def pyTruthyInt : Option Int → Bool
  | none => false
  | some n => !(n == 0)

/-- Python `s[:n]` (by code point). -/
def pyTake (s : String) (n : Nat) : String :=
  ⟨s.data.take n⟩

/-- `commits = history.get("totalCount", 0)` after the or-chain. -/
def historyCommits : Option History → Int
  | none => 0
  | some h => h.totalCount.getD 0

/-- `nodes = history.get("nodes") or []` after the or-chain. -/
def historyNodes : Option History → List (Option CommitNode)
  | none => []
  | some h => h.nodes

/-- The messages emitted by the `for node in nodes` loop: nodes that are
truthy and carry a truthy message. -/
def commitMsgs (nodes : List (Option CommitNode)) : List String :=
  nodes.filterMap (fun o => (o.bind CommitNode.message).bind
    (fun m => if m = "" then none else some m))

/-- `[f"{e['name']}{'/' if e['type'] == 'tree' else ''}" for e in tree if e]`. -/
def treeStruct (entries : List (Option TreeEntry)) : List String :=
  (entries.filterMap id).map
    (fun e => e.name ++ (if e.etype = "tree" then "/" else ""))

/-- The truthy README text, when READMEs are included:
`include_readmes and readme and isinstance(readme, dict) and readme.get("text")`. -/
def readmeTruthy (incl : Bool) (r : Option (Option String)) : Option String :=
  if incl then
    match r with
    | some (some t) => if t = "" then none else some t
    | _ => none
  else none

/-- `langs = [l['name'] for l in langs_nodes if l and 'name' in l]`. -/
def repoLangs (l : List (Option LangNode)) : List String :=
  l.filterMap (fun o => o.bind LangNode.name)

/-- Lines of the Identity section (normalizer.py:19-37). -/
def identityLines (u : GhUser) : List String :=
  ["## Identity",
   "Name: " ++ pyStr u.name,
   "Handle: " ++ pyStr u.login,
   "Avatar: " ++ pyStr u.avatarUrl,
   "Bio: " ++ pyStr u.bio,
   "Company: " ++ pyStr u.company,
   "Location: " ++ pyStr u.location,
   "Website: " ++ pyStr u.websiteUrl,
   "Twitter: " ++ pyStr u.twitterUsername,
   "Followers: " ++ pyIntStr u.followersTotal,
   "Total Contributions (Year): " ++ pyIntStr (u.contribs.bind ContribsColl.calendarTotal)]
  ++ (if pyTruthyInt (u.contribs.bind ContribsColl.commitTotal) then
       [" - Commits: " ++ pyIntStr (u.contribs.bind ContribsColl.commitTotal),
        " - Pull Requests: " ++ pyIntStr (u.contribs.bind ContribsColl.prTotal),
        " - Issues: " ++ pyIntStr (u.contribs.bind ContribsColl.issueTotal),
        " - Repos Created: " ++ pyIntStr (u.contribs.bind ContribsColl.repoTotal)]
      else [])
  ++ [""]

/-- Lines emitted for one truthy pinned item (normalizer.py:44-78). -/
def pinnedItemLines (incl : Bool) (maxReadmeChars : Nat) (it : PinnedItem) : List String :=
  ["### " ++ pyStr it.name,
   "Description: " ++ pyStr it.description,
   "URL: " ++ pyStr it.url]
  ++ (match it.stargazerCount with
      | some n => ["Stars: " ++ toString n]
      | none => [])
  ++ (match it.primaryLanguage with
      | some l => ["Language: " ++ l]
      | none => [])
  ++ ["Total Commits: " ++ toString (historyCommits it.branch)]
  ++ (if (historyNodes it.branch).isEmpty then []
      else "Latest Commits:" ::
        (commitMsgs (historyNodes it.branch)).map (fun m => " - " ++ m))
  ++ (if it.tree.isEmpty then []
      else ["Repo Structure (Root): " ++ String.intercalate ", " (treeStruct it.tree)])
  ++ (match readmeTruthy incl it.readme with
      | some t => ["README Snippet:", "```\n" ++ pyTake t maxReadmeChars ++ "\n```"]
      | none => [])
  ++ [""]

/-- Lines emitted for one truthy owned repository (normalizer.py:86-119). -/
def repoItemLines (incl : Bool) (maxReadmeChars : Nat) (rp : Repo) : List String :=
  ["- **" ++ pyStr rp.name ++ "**: " ++ pyStr rp.description,
   "  Stack: " ++ String.intercalate ", " (repoLangs rp.langNodes),
   "  Stars: " ++ pyIntStr rp.stargazerCount ++ " | Updated: " ++ pyStr rp.pushedAt,
   "  Total Commits: " ++ toString (historyCommits rp.branch)]
  ++ (if (historyNodes rp.branch).isEmpty then []
      else "  Latest Commits:" ::
        (commitMsgs (historyNodes rp.branch)).map (fun m => "   - " ++ m))
  ++ (if rp.tree.isEmpty then []
      else ["  Structure: " ++ String.intercalate ", " (treeStruct rp.tree)])
  ++ (match readmeTruthy incl rp.readme with
      | some t => ["  README Extract: " ++ pyTake t (max 500 (maxReadmeChars / 3)) ++ "..."]
      | none => [])

/-- The Pinned Projects section (normalizer.py:40-78); falsy items are
skipped by `if not item: continue`. -/
def pinnedSectionLines (incl : Bool) (maxReadmeChars : Nat)
    (items : List (Option PinnedItem)) : List String :=
  "## Pinned Projects (High Signal)" ::
    items.flatMap (fun o => match o with
      | none => []
      | some it => pinnedItemLines incl maxReadmeChars it)

/-- The Top Repositories section (normalizer.py:81-119): the first
`max_repos` nodes, falsy ones skipped. -/
def repoSectionLines (incl : Bool) (maxReadmeChars maxRepos : Nat)
    (repos : List (Option Repo)) : List String :=
  "## Top Repositories (Active & Significant)" ::
  "Note: These repositories are statistically significant. Analyze them for technical depth even if not pinned." ::
    (repos.take maxRepos).flatMap (fun o => match o with
      | none => []
      | some rp => repoItemLines incl maxReadmeChars rp)

/-- All lines of the normalized document for a truthy user. -/
def normalizeLines (u : GhUser) (incl : Bool) (maxReadmeChars maxRepos : Nat) :
    List String :=
  "# Developer Digital Footprint\n" :: identityLines u
  ++ pinnedSectionLines incl maxReadmeChars u.pinned
  ++ repoSectionLines incl maxReadmeChars maxRepos u.repos
  ++ [""]

/-- `normalize_profile_context` (src/kognit/probes/normalizer.py:3-123).
The input `none` models every payload whose
`github_data.get("data", {}).get("user", {})` lookup is falsy. -/
def normalize_profile_context (d : Option GhUser) (include_readmes : Bool)
    (max_readme_chars maxRepos : Nat) : String :=
  match d with
  | none => "No user data found."
  | some u =>
    String.intercalate "\n" (normalizeLines u include_readmes max_readme_chars maxRepos)

/-! ## Line classification

Helpers to classify emitted lines by their literal leading text; used to
reason about which section headers and repository bullets the normalizer
can produce. -/

/-- Whether `p` is a leading substring of `l` (by code points). -/
def strStarts (p l : String) : Bool :=
  p.data.isPrefixOf l.data

/-- A prefix check only inspects as many characters as the prefix has. -/
theorem isPrefixOf_append_left : ∀ (p a b : List Char), p.length ≤ a.length →
    p.isPrefixOf (a ++ b) = p.isPrefixOf a
  | [], a, _, _ => by simp [List.isPrefixOf]
  | _ :: _, [], _, h => by simp at h
  | c :: cs, d :: ds, b, h => by
    show (c == d && cs.isPrefixOf (ds ++ b)) = (c == d && cs.isPrefixOf ds)
    rw [isPrefixOf_append_left cs ds b (Nat.le_of_succ_le_succ h)]

/-- `strStarts` ignores anything appended past the prefix length. -/
theorem strStarts_append (p a b : String) (h : p.data.length ≤ a.data.length) :
    strStarts p (a ++ b) = strStarts p a := by
  unfold strStarts
  rw [String.data_append a b, isPrefixOf_append_left _ _ _ h]

theorem append_data_len (a x : String) : a.data.length ≤ (a ++ x).data.length := by
  rw [String.data_append a x, List.length_append]
  exact Nat.le_add_right _ _

/-- `strStarts` through two appended tails. -/
theorem strStarts_append2 (p a x y : String) (h : p.data.length ≤ a.data.length) :
    strStarts p (a ++ x ++ y) = strStarts p a :=
  (strStarts_append p (a ++ x) y (le_trans h (append_data_len a x))).trans
    (strStarts_append p a x h)

/-- `strStarts` through three appended tails. -/
theorem strStarts_append3 (p a x y z : String) (h : p.data.length ≤ a.data.length) :
    strStarts p (a ++ x ++ y ++ z) = strStarts p a :=
  (strStarts_append p (a ++ x ++ y) z
      (le_trans (le_trans h (append_data_len a x)) (append_data_len (a ++ x) y))).trans
    (strStarts_append2 p a x y h)

/-- A line is a Markdown section header when it starts with `"## "`. -/
def isHeaderLine (l : String) : Bool := strStarts "## " l

/-- A line is a top-repository bullet when it starts with `"- **"`. -/
def isBulletLine (l : String) : Bool := strStarts "- **" l

@[simp] theorem hdrF_name (x : String) : isHeaderLine ("Name: " ++ x) = false :=
  (strStarts_append "## " "Name: " x (by decide)).trans (by decide)
@[simp] theorem hdrF_handle (x : String) : isHeaderLine ("Handle: " ++ x) = false :=
  (strStarts_append "## " "Handle: " x (by decide)).trans (by decide)
@[simp] theorem hdrF_avatar (x : String) : isHeaderLine ("Avatar: " ++ x) = false :=
  (strStarts_append "## " "Avatar: " x (by decide)).trans (by decide)
@[simp] theorem hdrF_bio (x : String) : isHeaderLine ("Bio: " ++ x) = false :=
  (strStarts_append "## " "Bio: " x (by decide)).trans (by decide)
@[simp] theorem hdrF_company (x : String) : isHeaderLine ("Company: " ++ x) = false :=
  (strStarts_append "## " "Company: " x (by decide)).trans (by decide)
@[simp] theorem hdrF_location (x : String) : isHeaderLine ("Location: " ++ x) = false :=
  (strStarts_append "## " "Location: " x (by decide)).trans (by decide)
@[simp] theorem hdrF_website (x : String) : isHeaderLine ("Website: " ++ x) = false :=
  (strStarts_append "## " "Website: " x (by decide)).trans (by decide)
@[simp] theorem hdrF_twitter (x : String) : isHeaderLine ("Twitter: " ++ x) = false :=
  (strStarts_append "## " "Twitter: " x (by decide)).trans (by decide)
@[simp] theorem hdrF_followers (x : String) : isHeaderLine ("Followers: " ++ x) = false :=
  (strStarts_append "## " "Followers: " x (by decide)).trans (by decide)
@[simp] theorem hdrF_contrib (x : String) :
    isHeaderLine ("Total Contributions (Year): " ++ x) = false :=
  (strStarts_append "## " "Total Contributions (Year): " x (by decide)).trans (by decide)
@[simp] theorem hdrF_commits (x : String) : isHeaderLine (" - Commits: " ++ x) = false :=
  (strStarts_append "## " " - Commits: " x (by decide)).trans (by decide)
@[simp] theorem hdrF_prs (x : String) : isHeaderLine (" - Pull Requests: " ++ x) = false :=
  (strStarts_append "## " " - Pull Requests: " x (by decide)).trans (by decide)
@[simp] theorem hdrF_issues (x : String) : isHeaderLine (" - Issues: " ++ x) = false :=
  (strStarts_append "## " " - Issues: " x (by decide)).trans (by decide)
@[simp] theorem hdrF_reposc (x : String) : isHeaderLine (" - Repos Created: " ++ x) = false :=
  (strStarts_append "## " " - Repos Created: " x (by decide)).trans (by decide)
@[simp] theorem hdrF_h3 (x : String) : isHeaderLine ("### " ++ x) = false :=
  (strStarts_append "## " "### " x (by decide)).trans (by decide)
@[simp] theorem hdrF_desc (x : String) : isHeaderLine ("Description: " ++ x) = false :=
  (strStarts_append "## " "Description: " x (by decide)).trans (by decide)
@[simp] theorem hdrF_url (x : String) : isHeaderLine ("URL: " ++ x) = false :=
  (strStarts_append "## " "URL: " x (by decide)).trans (by decide)
@[simp] theorem hdrF_stars (x : String) : isHeaderLine ("Stars: " ++ x) = false :=
  (strStarts_append "## " "Stars: " x (by decide)).trans (by decide)
@[simp] theorem hdrF_lang (x : String) : isHeaderLine ("Language: " ++ x) = false :=
  (strStarts_append "## " "Language: " x (by decide)).trans (by decide)
@[simp] theorem hdrF_tc (x : String) : isHeaderLine ("Total Commits: " ++ x) = false :=
  (strStarts_append "## " "Total Commits: " x (by decide)).trans (by decide)
@[simp] theorem hdrF_dash (x : String) : isHeaderLine (" - " ++ x) = false :=
  (strStarts_append "## " " - " x (by decide)).trans (by decide)
@[simp] theorem hdrF_struct (x : String) :
    isHeaderLine ("Repo Structure (Root): " ++ x) = false :=
  (strStarts_append "## " "Repo Structure (Root): " x (by decide)).trans (by decide)
@[simp] theorem hdrF_fence (x y : String) : isHeaderLine ("```\n" ++ x ++ y) = false :=
  (strStarts_append2 "## " "```\n" x y (by decide)).trans (by decide)
@[simp] theorem hdrF_bullet (x y z : String) :
    isHeaderLine ("- **" ++ x ++ y ++ z) = false :=
  (strStarts_append3 "## " "- **" x y z (by decide)).trans (by decide)
@[simp] theorem hdrF_stack (x : String) : isHeaderLine ("  Stack: " ++ x) = false :=
  (strStarts_append "## " "  Stack: " x (by decide)).trans (by decide)
@[simp] theorem hdrF_stars2 (x y z : String) :
    isHeaderLine ("  Stars: " ++ x ++ y ++ z) = false :=
  (strStarts_append3 "## " "  Stars: " x y z (by decide)).trans (by decide)
@[simp] theorem hdrF_tc2 (x : String) : isHeaderLine ("  Total Commits: " ++ x) = false :=
  (strStarts_append "## " "  Total Commits: " x (by decide)).trans (by decide)
@[simp] theorem hdrF_dash2 (x : String) : isHeaderLine ("   - " ++ x) = false :=
  (strStarts_append "## " "   - " x (by decide)).trans (by decide)
@[simp] theorem hdrF_struct2 (x : String) : isHeaderLine ("  Structure: " ++ x) = false :=
  (strStarts_append "## " "  Structure: " x (by decide)).trans (by decide)
@[simp] theorem hdrF_readme2 (x y : String) :
    isHeaderLine ("  README Extract: " ++ x ++ y) = false :=
  (strStarts_append2 "## " "  README Extract: " x y (by decide)).trans (by decide)
@[simp] theorem hdrF_top : isHeaderLine "# Developer Digital Footprint\n" = false := by decide
@[simp] theorem hdrT_identity : isHeaderLine "## Identity" = true := by decide
@[simp] theorem hdrT_pinned : isHeaderLine "## Pinned Projects (High Signal)" = true := by
  decide
@[simp] theorem hdrT_repos :
    isHeaderLine "## Top Repositories (Active & Significant)" = true := by decide
@[simp] theorem hdrF_note :
    isHeaderLine "Note: These repositories are statistically significant. Analyze them for technical depth even if not pinned." = false := by decide
@[simp] theorem hdrF_latest : isHeaderLine "Latest Commits:" = false := by decide
@[simp] theorem hdrF_latest2 : isHeaderLine "  Latest Commits:" = false := by decide
@[simp] theorem hdrF_snippet : isHeaderLine "README Snippet:" = false := by decide
@[simp] theorem hdrF_empty : isHeaderLine "" = false := by decide

@[simp] theorem bulT_bullet (x y z : String) :
    isBulletLine ("- **" ++ x ++ y ++ z) = true :=
  (strStarts_append3 "- **" "- **" x y z (by decide)).trans (by decide)
@[simp] theorem bulF_stack (x : String) : isBulletLine ("  Stack: " ++ x) = false :=
  (strStarts_append "- **" "  Stack: " x (by decide)).trans (by decide)
@[simp] theorem bulF_stars (x y z : String) :
    isBulletLine ("  Stars: " ++ x ++ y ++ z) = false :=
  (strStarts_append3 "- **" "  Stars: " x y z (by decide)).trans (by decide)
@[simp] theorem bulF_tc (x : String) : isBulletLine ("  Total Commits: " ++ x) = false :=
  (strStarts_append "- **" "  Total Commits: " x (by decide)).trans (by decide)
@[simp] theorem bulF_dash (x : String) : isBulletLine ("   - " ++ x) = false :=
  (strStarts_append "- **" "   - " x (by decide)).trans (by decide)
@[simp] theorem bulF_struct (x : String) : isBulletLine ("  Structure: " ++ x) = false :=
  (strStarts_append "- **" "  Structure: " x (by decide)).trans (by decide)
@[simp] theorem bulF_readme (x y : String) :
    isBulletLine ("  README Extract: " ++ x ++ y) = false :=
  (strStarts_append2 "- **" "  README Extract: " x y (by decide)).trans (by decide)
@[simp] theorem bulF_latest : isBulletLine "  Latest Commits:" = false := by decide
@[simp] theorem bulF_hdr_repos :
    isBulletLine "## Top Repositories (Active & Significant)" = false := by decide
@[simp] theorem bulF_note :
    isBulletLine "Note: These repositories are statistically significant. Analyze them for technical depth even if not pinned." = false := by decide

@[simp] theorem hdrF_dash_map (xs : List String) :
    (xs.map (fun m => " - " ++ m)).filter isHeaderLine = [] := by
  induction xs with
  | nil => rfl
  | cons a t ih => simp [List.filter_cons, ih]

@[simp] theorem hdrF_dash2_map (xs : List String) :
    (xs.map (fun m => "   - " ++ m)).filter isHeaderLine = [] := by
  induction xs with
  | nil => rfl
  | cons a t ih => simp [List.filter_cons, ih]

@[simp] theorem bulF_dash_map (xs : List String) :
    (xs.map (fun m => "   - " ++ m)).filter isBulletLine = [] := by
  induction xs with
  | nil => rfl
  | cons a t ih => simp [List.filter_cons, ih]

/-- The Identity section contains exactly one section-header line. -/
theorem identityLines_filter (u : GhUser) :
    (identityLines u).filter isHeaderLine = ["## Identity"] := by
  unfold identityLines
  simp [List.filter_append, List.filter_cons,
        apply_ite (List.filter isHeaderLine)]

/-- A pinned item emits no section-header line. -/
theorem pinnedItemLines_no_header (incl : Bool) (m : Nat) (it : PinnedItem) :
    (pinnedItemLines incl m it).filter isHeaderLine = [] := by
  unfold pinnedItemLines
  cases it.stargazerCount <;> cases it.primaryLanguage <;>
    cases readmeTruthy incl it.readme <;>
      simp [List.filter_append, List.filter_cons,
            apply_ite (List.filter isHeaderLine)]

/-- A repository entry emits no section-header line. -/
theorem repoItemLines_no_header (incl : Bool) (m : Nat) (rp : Repo) :
    (repoItemLines incl m rp).filter isHeaderLine = [] := by
  unfold repoItemLines
  cases readmeTruthy incl rp.readme <;>
    simp [List.filter_append, List.filter_cons,
          apply_ite (List.filter isHeaderLine)]

theorem filter_flatMap_nil {α : Type} (q : String → Bool) (f : α → List String)
    (h : ∀ a, (f a).filter q = []) : ∀ l : List α, (l.flatMap f).filter q = []
  | [] => rfl
  | a :: t => by
    rw [List.flatMap_cons, List.filter_append, h a, filter_flatMap_nil q f h t]
    rfl

/-- The Pinned Projects section contains exactly one header line. -/
theorem pinnedSectionLines_filter (incl : Bool) (m : Nat)
    (items : List (Option PinnedItem)) :
    (pinnedSectionLines incl m items).filter isHeaderLine =
      ["## Pinned Projects (High Signal)"] := by
  unfold pinnedSectionLines
  rw [List.filter_cons]
  have h : ∀ o : Option PinnedItem,
      ((match o with
        | none => []
        | some it => pinnedItemLines incl m it) : List String).filter isHeaderLine = [] := by
    intro o
    cases o with
    | none => rfl
    | some it => exact pinnedItemLines_no_header incl m it
  rw [filter_flatMap_nil _ _ h items]
  simp

/-- The Top Repositories section contains exactly one header line. -/
theorem repoSectionLines_filter (incl : Bool) (m k : Nat)
    (repos : List (Option Repo)) :
    (repoSectionLines incl m k repos).filter isHeaderLine =
      ["## Top Repositories (Active & Significant)"] := by
  unfold repoSectionLines
  rw [List.filter_cons, List.filter_cons]
  have h : ∀ o : Option Repo,
      ((match o with
        | none => []
        | some rp => repoItemLines incl m rp) : List String).filter isHeaderLine = [] := by
    intro o
    cases o with
    | none => rfl
    | some rp => exact repoItemLines_no_header incl m rp
  rw [filter_flatMap_nil _ _ h]
  simp

/-- The normalized document's section headers are exactly Identity,
Pinned Projects and Top Repositories, in this order, for every input. -/
theorem normalizeLines_headers (u : GhUser) (incl : Bool) (m k : Nat) :
    (normalizeLines u incl m k).filter isHeaderLine =
      ["## Identity", "## Pinned Projects (High Signal)",
       "## Top Repositories (Active & Significant)"] := by
  unfold normalizeLines
  simp [List.filter_append, identityLines_filter, pinnedSectionLines_filter,
        repoSectionLines_filter, List.filter_cons]

/-- Each repository entry contributes exactly its own bullet line. -/
theorem repoItemLines_bullets (incl : Bool) (m : Nat) (rp : Repo) :
    (repoItemLines incl m rp).filter isBulletLine =
      ["- **" ++ pyStr rp.name ++ "**: " ++ pyStr rp.description] := by
  unfold repoItemLines
  cases readmeTruthy incl rp.readme <;>
    simp [List.filter_append, List.filter_cons,
          apply_ite (List.filter isBulletLine)]

theorem repoSection_bullets_aux (incl : Bool) (m : Nat) : ∀ rs : List Repo,
    ((rs.map some).flatMap (fun o => match o with
        | none => []
        | some rp => repoItemLines incl m rp)).filter isBulletLine
      = rs.map (fun rp => "- **" ++ pyStr rp.name ++ "**: " ++ pyStr rp.description)
  | [] => rfl
  | rp :: t => by
    rw [List.map_cons, List.flatMap_cons, List.filter_append,
        repoItemLines_bullets incl m rp, repoSection_bullets_aux incl m t]
    rfl

/-- C9: for every record and every `max_repos`, the Top-Repositories
section's bullet lines are exactly the first `max_repos` owned
repositories, in the record's delivered order — no re-sorting. -/
theorem C9_top_repos_order_preserved (repos : List Repo) (incl : Bool) (m k : Nat) :
    (repoSectionLines incl m k (repos.map some)).filter isBulletLine =
      (repos.take k).map
        (fun rp => "- **" ++ pyStr rp.name ++ "**: " ++ pyStr rp.description) := by
  unfold repoSectionLines
  rw [List.filter_cons, List.filter_cons, ← List.map_take some repos k,
      repoSection_bullets_aux incl m (repos.take k)]
  simp

/-- C10: a payload with a falsy `user` object short-circuits to the fixed
sentinel, which is not a sectioned document (no Identity header). -/
theorem C10_missing_user_sentinel :
    (∀ (incl : Bool) (m k : Nat),
      normalize_profile_context none incl m k = "No user data found.") ∧
    isHeaderLine "No user data found." = false :=
  ⟨fun _ _ _ => rfl, by decide⟩

/-- A profile record whose only populated identity field is the handle. -/
def identityAbsentUser : GhUser :=
  { name := none, login := some "testuser", avatarUrl := none, bio := none,
    company := none, location := none, websiteUrl := none, twitterUsername := none,
    followersTotal := none, contribs := none, pinned := [], repos := [] }

/-- C6, counterexample: with the `name` field absent, the Identity section
renders the non-empty placeholder line `"Name: None"` (Python str(None))
rather than an empty value `"Name: "`. -/
theorem C6_counterexample_absent_renders_None :
    identityAbsentUser.name = none ∧
    (normalizeLines identityAbsentUser true 3000 15).contains "Name: None" = true ∧
    (normalizeLines identityAbsentUser true 3000 15).contains "Name: " = false := by
  decide

/-- C6, amended: for every record with a user, the Identity section is
present with every identity field label emitted, each absent field
rendered with the placeholder `"None"` (never omitted, but not empty). -/
theorem C6_identity_labels_amended :
    (∀ (u : GhUser) (incl : Bool) (m k : Nat), ∃ rest : List String,
      normalizeLines u incl m k =
        "# Developer Digital Footprint\n" :: "## Identity" ::
        ("Name: " ++ pyStr u.name) :: ("Handle: " ++ pyStr u.login) ::
        ("Avatar: " ++ pyStr u.avatarUrl) :: ("Bio: " ++ pyStr u.bio) ::
        ("Company: " ++ pyStr u.company) :: ("Location: " ++ pyStr u.location) ::
        ("Website: " ++ pyStr u.websiteUrl) :: ("Twitter: " ++ pyStr u.twitterUsername) ::
        ("Followers: " ++ pyIntStr u.followersTotal) :: rest) ∧
    pyStr none = "None" ∧ pyIntStr none = "None" := by
  refine ⟨fun u incl m k => ⟨?_, ?_⟩, rfl, rfl⟩
  · exact ("Total Contributions (Year): " ++
        pyIntStr (u.contribs.bind ContribsColl.calendarTotal)) ::
      ((if pyTruthyInt (u.contribs.bind ContribsColl.commitTotal) then
          [" - Commits: " ++ pyIntStr (u.contribs.bind ContribsColl.commitTotal),
           " - Pull Requests: " ++ pyIntStr (u.contribs.bind ContribsColl.prTotal),
           " - Issues: " ++ pyIntStr (u.contribs.bind ContribsColl.issueTotal),
           " - Repos Created: " ++ pyIntStr (u.contribs.bind ContribsColl.repoTotal)]
        else []) ++ [""]) ++
      pinnedSectionLines incl m u.pinned ++ repoSectionLines incl m k u.repos ++ [""]
  · rfl

/-! ## C1: the call-site / signature mismatch for the normalizer

`src/kognit/main.py:112-117` calls
`normalize_profile_context(raw_github_data, external_content,
search_results, include_readmes=include_readmes)`, but the function's
parameter list (normalizer.py:3-8) is
`(github_data, include_readmes, max_readme_chars, max_repos)` — it has no
external-content or search-results parameters at all.  We model CPython's
argument binding to show the call raises `TypeError`, and show the
normalizer never emits an external-content or search-context section. -/

/-- A formal parameter: its name and whether it has a default value. -/
structure PyParam where
  pname : String
  hasDefault : Bool
  deriving DecidableEq, Repr

/-- CPython positional/keyword argument binding for a call with `npos`
positional arguments and the given keyword-argument names. -/
def bindCall (params : List PyParam) (npos : Nat) (kwargs : List String) :
    Except String Unit :=
  if params.length < npos then .error "too many positional arguments"
  else if kwargs.any (fun k => (params.take npos).any (fun p => p.pname == k)) then
    .error "got multiple values for argument"
  else if kwargs.any (fun k => !params.any (fun p => p.pname == k)) then
    .error "unexpected keyword argument"
  else if params.enum.any
      (fun ip => npos ≤ ip.1 && !kwargs.contains ip.2.pname && !ip.2.hasDefault) then
    .error "missing a required argument"
  else .ok ()

/-- The parameter list of `normalize_profile_context` (normalizer.py:3-8). -/
def normalizeParams : List PyParam :=
  [⟨"github_data", false⟩, ⟨"include_readmes", true⟩,
   ⟨"max_readme_chars", true⟩, ⟨"max_repos", true⟩]

/-- C1: the normalizer is not a function of external content or search
results.  (i) The call in `main.py` — three positional arguments plus the
`include_readmes` keyword — raises `TypeError` (`include_readmes` is
bound twice, since `external_content` lands in that slot positionally).
(ii) For every input, the emitted section headers are exactly Identity,
Pinned Projects and Top Repositories: no external-content or
search-context section is ever emitted, non-empty input or not. -/
theorem C1_normalizer_lacks_external_inputs :
    bindCall normalizeParams 3 ["include_readmes"] =
      .error "got multiple values for argument" ∧
    ∀ (u : GhUser) (incl : Bool) (m k : Nat),
      (normalizeLines u incl m k).filter isHeaderLine =
        ["## Identity", "## Pinned Projects (High Signal)",
         "## Top Repositories (Active & Significant)"] :=
  ⟨by decide, normalizeLines_headers⟩

/-! ## `GithubProbe._fetch_repo_details_async` (github.py:403-515)

Each awaited HTTP call is an `Except Unit _` in the environment: `.error`
models the call raising.  Markup queries on a fetched page are modelled by
the page record carrying each query's result.  The accumulated `details`
dictionary is threaded explicitly; the `Except RepoDetails RepoDetails`
result of the try body carries, on error, the dictionary as mutated up to
the raise point — which is what the `except` boundary returns. -/

/-- Python `s.strip(c)` for a single strip character. -/
def pyStripChar (c : Char) (s : String) : String :=
  ⟨((s.data.dropWhile (fun d => d = c)).reverse.dropWhile (fun d => d = c)).reverse⟩

/-- Python `s.split(c)` for a one-character separator (keeps empties). -/
def splitOnChar (c : Char) : List Char → List (List Char)
  | [] => [[]]
  | d :: ds =>
    match splitOnChar c ds with
    | [] => [[]]
    | r :: rs => if d = c then [] :: r :: rs else (d :: r) :: rs

/-- Whether `needle` occurs inside `hay` (Python `needle in hay`). -/
def listIsInfix (needle : List Char) : List Char → Bool
  | [] => needle.isEmpty
  | h :: t => needle.isPrefixOf (h :: t) || listIsInfix needle t

/-- Python substring containment `needle in hay`. -/
def strIn (needle hay : String) : Bool :=
  listIsInfix needle.data hay.data

/-- `re.search(r"([\d,]+)", t)`: the first maximal digit/comma run. -/
def firstDigitCommaRun : List Char → Option String
  | [] => none
  | c :: cs =>
    if c.isDigit || c = ','
    then some ⟨c :: cs.takeWhile (fun d => d.isDigit || d = ',')⟩
    else firstDigitCommaRun cs

/-- `"/" + "/".join(repo_url.split("/")[-2:])`. -/
def repoPathOf (repo_url : String) : String :=
  let parts := splitOnChar '/' repo_url.data
  let lastTwo := parts.drop (parts.length - 2)
  "/" ++ String.intercalate "/" (lastTwo.map (fun l => (⟨l⟩ : String)))

/-- One commit object of the embedded payload; `shortMessage` is its
`.get("shortMessage")` lookup. -/
structure CommitEntry where
  shortMessage : Option String
  deriving DecidableEq, Repr

/-- One commit group; `commits` collapses `group.get("commits") or []`. -/
structure CommitGroup where
  commits : List (Option CommitEntry)
  deriving DecidableEq, Repr

/-- The parsed embedded JSON payload; `commitGroups` collapses
`(c_json.get("payload") or {}).get("commitGroups") or []`. -/
structure EmbeddedPayload where
  commitGroups : List (Option CommitGroup)
  deriving DecidableEq, Repr

/-- The commit-history page, by the queries the code runs on it:
`embeddedScript = some parsed` when the `react-app.embeddedData` script
tag is found (`parsed = none` when `json.loads` would reject its text);
`rowLinks` holds, per commit row, the stripped text of the row's message
link if any; `hashLinks` the stripped texts of links whose href matches
the 40-hex commit pattern. -/
structure CommitsPage where
  status : Nat
  embeddedScript : Option (Option EmbeddedPayload)
  rowLinks : List (Option String)
  hashLinks : List String
  deriving DecidableEq, Repr

/-- The repository landing page, by the queries run on it. -/
structure MainRepoPage where
  status : Nat
  commitSpanText : Option String
  commitStrongText : Option String
  primaryLinks : List (String × String)
  deriving DecidableEq, Repr

/-- A raw-content response. -/
structure RawResp where
  status : Nat
  text : String
  deriving DecidableEq, Repr

/-- The network environment of one detail fetch, in call order. -/
structure DetailEnv where
  mainPage : Except Unit MainRepoPage
  commitsPage : Except Unit CommitsPage
  readmeMain : Except Unit RawResp
  readmeMaster : Except Unit RawResp
  deriving Repr

/-- The `details` dictionary. -/
structure RepoDetails where
  readme : Option String
  tree : List TreeEntry
  commits : Int
  latest_commits : List String
  deriving DecidableEq, Repr

/-- The initial value `{"readme": None, "tree": [], "commits": 0,
"latest_commits": []}`. -/
def allAbsentDetails : RepoDetails := ⟨none, [], 0, []⟩

/-- The module-level imports of src/kognit/probes/github.py.  Note the
absence of `json`, which line 439 nevertheless calls. -/
def githubProbeImports : List String := ["os", "httpx", "asyncio", "typing", "bs4", "re"]

/-- Inner loop over a group's commits (github.py:445-450). -/
def embInner : List (Option CommitEntry) → List String → List String
  | [], msgs => msgs
  | c :: rest, msgs =>
    match c with
    | none => embInner rest msgs
    | some ce =>
      let msgs2 := match ce.shortMessage with
        | some m => if m ≠ "" && !msgs.contains m then msgs ++ [m] else msgs
        | none => msgs
      if 4 ≤ msgs2.length then msgs2 else embInner rest msgs2

/-- Outer loop over the payload's commit groups (github.py:442-451). -/
def embGroups : List (Option CommitGroup) → List String → List String
  | [], msgs => msgs
  | g :: rest, msgs =>
    match g with
    | none => embGroups rest msgs
    | some gr =>
      let msgs2 := embInner gr.commits msgs
      if 4 ≤ msgs2.length then msgs2 else embGroups rest msgs2

/-- The messages the embedded payload would contribute, as the loop on
github.py:442-451 is written. -/
def embeddedMessages (p : EmbeddedPayload) : List String :=
  embGroups p.commitGroups []

/-- What the embedded branch actually yields: the branch body starts with
`json.loads`, but `json` is not among `githubProbeImports`, so the name
lookup raises `NameError`, the bare `except: pass` swallows it, and no
message is ever taken from the payload. -/
def embeddedAttempt (scr : Option (Option EmbeddedPayload)) : List String :=
  match scr with
  | none => []
  | some parsed =>
    if githubProbeImports.contains "json" then
      match parsed with
      | some p => embeddedMessages p
      | none => []
    else []

/-- Row-link fallback loop (github.py:459-466). -/
def rowLoop : List (Option String) → List String → List String
  | [], msgs => msgs
  | r :: rest, msgs =>
    let msgs2 := match r with
      | some t => if t ≠ "" && !msgs.contains t then msgs ++ [t] else msgs
      | none => msgs
    if 4 ≤ msgs2.length then msgs2 else rowLoop rest msgs2

/-- Hash-pattern ultra-fallback loop (github.py:469-476): hash-only texts
are filtered by the `len(text) > 8` guard. -/
def hashLoop : List String → List String → List String
  | [], msgs => msgs
  | l :: rest, msgs =>
    let msgs2 := if l ≠ "" && 8 < l.length && !msgs.contains l then msgs ++ [l] else msgs
    if 4 ≤ msgs2.length then msgs2 else hashLoop rest msgs2

/-- Recent-commit-message extraction from the commit-history page
(github.py:431-479): embedded payload first, then row links, then
hash-pattern links. -/
def latestCommitMessages (cp : CommitsPage) : List String :=
  if cp.status == 200 then
    let m1 := embeddedAttempt cp.embeddedScript
    if m1.isEmpty then
      let m2 := rowLoop cp.rowLinks []
      if m2.isEmpty then hashLoop cp.hashLinks [] else m2
    else m1
  else []

/-- Tree-link scan (github.py:484-502): de-duplicates by display name,
keeps hrefs scoped under the repository's `/tree/` or `/blob/` with at
least 5 path segments. -/
def detailsTreeLoop (repoPath : String) :
    List (String × String) → List String → List TreeEntry → List TreeEntry
  | [], _, acc => acc
  | (href, lname) :: rest, seen, acc =>
    if lname = "" || seen.contains lname then detailsTreeLoop repoPath rest seen acc
    else if strIn (repoPath ++ "/tree/") href || strIn (repoPath ++ "/blob/") href then
      if 5 ≤ (splitOnChar '/' (pyStripChar '/' href).data).length then
        detailsTreeLoop repoPath rest (lname :: seen)
          (acc ++ [⟨lname, if strIn "/tree/" href then "tree" else "blob"⟩])
      else detailsTreeLoop repoPath rest seen acc
    else detailsTreeLoop repoPath rest seen acc

/-- The try body of `_fetch_repo_details_async`.  `.error d` means an
exception escaped the try block with the details dictionary mutated up to
`d`; the `except` boundary turns that into a normal return of `d`. -/
def fetch_repo_details_try (repo_url : String) (env : DetailEnv) :
    Except RepoDetails RepoDetails :=
  match env.mainPage with
  | .error _ => .error allAbsentDetails
  | .ok pg =>
    let step1 : Except RepoDetails RepoDetails :=
      if pg.status == 200 then
        let c1 : Except RepoDetails Int :=
          match pg.commitSpanText with
          | some t =>
            match firstDigitCommaRun t.data with
            | some g =>
              (match parse_count g with
               | .ok n => .ok n
               | .error _ => .error allAbsentDetails)
            | none => .ok 0
          | none => .ok 0
        match c1 with
        | .error d => .error d
        | .ok commitsA =>
          let c2 : Except RepoDetails Int :=
            if commitsA == 0 then
              match pg.commitStrongText with
              | some t =>
                (match parse_count t with
                 | .ok n => .ok n
                 | .error _ => .error allAbsentDetails)
              | none => .ok commitsA
            else .ok commitsA
          match c2 with
          | .error d => .error d
          | .ok commitsB =>
            let msgs : List String :=
              match env.commitsPage with
              | .error _ => []
              | .ok cp => latestCommitMessages cp
            let tree := detailsTreeLoop (repoPathOf repo_url) pg.primaryLinks [] []
            .ok ⟨none, tree, commitsB, msgs⟩
      else .ok allAbsentDetails
    match step1 with
    | .error d => .error d
    | .ok d1 =>
      match env.readmeMain with
      | .error _ => .error d1
      | .ok r1 =>
        if r1.status == 200 then .ok { d1 with readme := some r1.text }
        else
          match env.readmeMaster with
          | .error _ => .error d1
          | .ok r2 =>
            if r2.status == 200 then .ok { d1 with readme := some r2.text }
            else .ok d1

/-- `_fetch_repo_details_async` including its `except` boundary: it never
propagates; on an exception it returns the details accumulated so far. -/
def fetch_repo_details (repo_url : String) (env : DetailEnv) : RepoDetails :=
  match fetch_repo_details_try repo_url env with
  | .ok d => d
  | .error d => d

/-- A landing page reporting "12 commits", then every later call raising. -/
def c3MainPage : MainRepoPage :=
  { status := 200, commitSpanText := some "12 commits",
    commitStrongText := none, primaryLinks := [] }

/-- Detail-fetch environment in which the landing page is parsed (commit
count 12) and then the README fetch raises a network exception. -/
def c3Env : DetailEnv :=
  { mainPage := .ok c3MainPage, commitsPage := .error (),
    readmeMain := .error (), readmeMaster := .error () }

/-- C3, counterexample: an exception occurs during the detail fetch (the
README fetch raises, `c3Env.readmeMain = .error ()`), yet the returned
record is not the all-absent one — the commit count 12 parsed before the
raise is retained. -/
theorem C3_counterexample_partial_record :
    c3Env.readmeMain = .error () ∧
    fetch_repo_details "https://github.com/u/r" c3Env =
      { readme := none, tree := [], commits := 12, latest_commits := [] } ∧
    fetch_repo_details "https://github.com/u/r" c3Env ≠ allAbsentDetails := by
  refine ⟨rfl, by decide, by decide⟩

/-- Environment whose very first call (the landing page) raises. -/
def c3FailEnv : DetailEnv :=
  { mainPage := .error (), commitsPage := .error (),
    readmeMain := .error (), readmeMaster := .error () }

/-- C3, amended: the per-repository detail fetch never propagates an
exception — the boundary handler returns the record accumulated up to the
raise point (so one repository's failure never aborts the batch); the
all-absent record is returned exactly when the exception strikes before
any field was populated, in particular when the initial landing-page
fetch raises. -/
theorem C3_detail_fetch_amended :
    (∀ (url : String) (env : DetailEnv) (d : RepoDetails),
      fetch_repo_details_try url env = .error d → fetch_repo_details url env = d) ∧
    (∀ (url : String) (env : DetailEnv), env.mainPage = .error () →
      fetch_repo_details url env = allAbsentDetails) := by
  constructor
  · intro url env d h
    unfold fetch_repo_details
    rw [h]
  · intro url env h
    unfold fetch_repo_details fetch_repo_details_try
    rw [h]

/-- Witness for C3 at concrete environments: a raise after the commit
count was parsed keeps the partial record; a raise on the first call
yields the all-absent record. -/
theorem C3_detail_fetch_amended_witness :
    fetch_repo_details "https://github.com/u/r" c3Env =
      { readme := none, tree := [], commits := 12, latest_commits := [] } ∧
    fetch_repo_details "https://github.com/u/r" c3FailEnv = allAbsentDetails :=
  ⟨C3_detail_fetch_amended.1 "https://github.com/u/r" c3Env
      { readme := none, tree := [], commits := 12, latest_commits := [] } (by decide),
   C3_detail_fetch_amended.2 "https://github.com/u/r" c3FailEnv rfl⟩

/-- An embedded payload carrying two short commit messages. -/
def c8Payload : EmbeddedPayload :=
  ⟨[some ⟨[some ⟨some "Fix the lexer"⟩, some ⟨some "Add tests"⟩]⟩]⟩

/-- A modern commit-history page: embedded payload present and parsable,
and a row-level message link also present. -/
def c8CommitsPage : CommitsPage :=
  { status := 200, embeddedScript := some (some c8Payload),
    rowLinks := [some "Update row message"], hashLinks := [] }

/-- C8: the structured embedded payload is never used.  The loop over the
payload would yield its messages (second conjunct), but `json` is not
imported in github.py, so `json.loads` raises `NameError`, the bare
`except` swallows it, and the extraction falls through to row-level link
text (third conjunct) — contradicting the specified payload-first
priority and the code's own `Try JSON first` comment. -/
theorem C8_embedded_payload_ignored :
    githubProbeImports.contains "json" = false ∧
    embeddedMessages c8Payload = ["Fix the lexer", "Add tests"] ∧
    latestCommitMessages c8CommitsPage = ["Update row message"] := by
  decide

/-! ## `GithubProbe._get_text` and the pinned-item harvest
(github.py:279-301 and 517-529) -/

/-- Strip single/double quotes from both ends (Python `strip("'\"")`). -/
def isQuoteChar (c : Char) : Bool := c = '\'' || c = '"'

def pyStripQuotes (s : String) : String :=
  ⟨((s.data.dropWhile isQuoteChar).reverse.dropWhile isQuoteChar).reverse⟩

/-- A parse tree as the extraction helpers query it: the text of the first
element found by tag and class, or by tag and attribute/value pair;
`none` when the targeted node is missing. -/
structure Soup where
  byClass : String → String → Option String
  byAttr : String → String → String → Option String

/-- `GithubProbe._get_text` (github.py:517-525): a selector containing `=`
is split into an attribute/value pair (the value unquoted), otherwise it
is a class token; a missing node yields `None`, never an exception.
(The `ValueError` branch models `split("=")` unpacking a selector with
more than one `=`; no selector the code uses has one.) -/
def get_text (soup : Soup) (tag sel : String) : Except PyExn (Option String) :=
  if pyHasChar '=' sel then
    match splitOnChar '=' sel.data with
    | [attr, v] => .ok (soup.byAttr tag ⟨attr⟩ (pyStripQuotes ⟨v⟩))
    | _ => .error .valueError
  else .ok (soup.byClass tag sel)

/-- One `li` of the pinned-items list, by the queries run on it
(github.py:279-301): hrefs of the hydro-click link and of the first
anchor; stripped texts of `span.repo`, the description, the language
and the stargazers link. -/
structure PinnedLi where
  hydroLink : Option String
  anyLink : Option String
  repoSpanText : Option String
  descText : Option String
  langText : Option String
  starText : Option String
  deriving DecidableEq, Repr

/-- The pinned-item node the harvest builds before the detail fetch. -/
structure PinnedMeta where
  name : String
  description : String
  url : String
  stargazerCount : Int
  primaryLanguage : String
  deriving DecidableEq, Repr

/-- The per-item body of the pinned-items loop (github.py:279-301).
`item.select_one("span.repo")` is used without a guard: a missing
`span.repo` node makes `.get_text(strip=True)` an attribute access on
`None`, raising `AttributeError`.  The star text goes through
`_parse_count`, whose exceptions (if any) also propagate. -/
def scrapePinnedItem (it : PinnedLi) : Except PyExn PinnedMeta :=
  let repoPath :=
    match it.hydroLink with
    | some h => h
    | none =>
      match it.anyLink with
      | some h => h
      | none => ""
  match it.repoSpanText with
  | none => .error .attributeError
  | some nm =>
    let desc := pyOr it.descText ""
    let lang := pyOr it.langText "Unknown"
    match (match it.starText with
           | some t => parse_count t
           | none => .ok 0) with
    | .error e => .error e
    | .ok stars =>
      .ok ⟨nm, desc, "https://github.com" ++ repoPath, stars, lang⟩

/-- A pinned `li` with every queried node present except `span.repo`. -/
def c4PinnedLi : PinnedLi :=
  { hydroLink := some "/octo/tool", anyLink := none, repoSpanText := none,
    descText := some "A scraping tool", langText := some "Python",
    starText := some "12" }

/-- C4: `_get_text` itself never raises on a missing node (a missing node
is `None`: second conjunct, for a class selector; third, for the
attribute selectors in use) — but the pinned-item harvest does not route
the repository name through it: with `span.repo` absent the loop body
raises `AttributeError`, which `_scrape_via_html` does not catch (first
conjunct), refuting the claim that a missing pinned sub-element degrades
to an absent value. -/
theorem C4_missing_repo_span_raises :
    scrapePinnedItem c4PinnedLi = .error .attributeError ∧
    (∀ (soup : Soup) (tag cls : String), pyHasChar '=' cls = false →
      get_text soup tag cls = .ok (soup.byClass tag cls)) ∧
    (∀ (soup : Soup) (tag : String),
      get_text soup tag "itemprop='programmingLanguage'" =
        .ok (soup.byAttr tag "itemprop" "programmingLanguage")) := by
  refine ⟨rfl, ?_, ?_⟩
  · intro soup tag cls h
    unfold get_text
    rw [h]
    rfl
  · intro soup tag
    rfl

/-- Witness for C4 at a concrete soup: a missing node (`fun _ _ => none`)
yields `.ok none` for both selector kinds. -/
theorem C4_missing_repo_span_raises_witness :
    get_text ⟨fun _ _ => none, fun _ _ _ => none⟩ "span" "p-org" = .ok none ∧
    get_text ⟨fun _ _ => none, fun _ _ _ => none⟩ "span"
      "itemprop='programmingLanguage'" = .ok none :=
  ⟨(C4_missing_repo_span_raises.2.1 ⟨fun _ _ => none, fun _ _ _ => none⟩
      "span" "p-org" rfl),
   (C4_missing_repo_span_raises.2.2 ⟨fun _ _ => none, fun _ _ _ => none⟩ "span")⟩

/-! ## `ExplorerAgent.analyze_repository` (src/kognit/agent/explorer.py:48-107) -/

/-- `RepoAnalysis` (src/kognit/models/analysis.py): no field carries a
range validator, so any integer complexity score constructs. -/
structure RepoAnalysis where
  name : String
  summary : String
  technical_deconstruction : String
  key_technologies : List String
  complexity_score : Int
  deriving DecidableEq, Repr

/-- An exception raised by the narrative generator, by the probes the
recovery code runs on it: `estr` is `str(e)`; `bodyDict = some fg` when
`e.body` exists and is a dict, with `fg` the
`e.body.get('error', {}).get('failed_generation')` lookup; `strMatch` is
the result of the `failed_generation` regex search on `str(e)` (already
unicode-unescaped), modelled as a query result like the markup
selectors. -/
structure GenError where
  estr : String
  bodyDict : Option (Option String)
  strMatch : Option String
  deriving DecidableEq, Repr

/-- The marker the string-fallback branch looks for in `str(e)`. -/
def failedGenMarker : String := "'failed_generation':"

/-- The recovery block of the `except` handler (explorer.py:72-88):
`content` starts as `"Analysis failed."`; a dict body with a truthy
`failed_generation` replaces it; otherwise, if the marker occurs in
`str(e)` and the regex matches, the match replaces it. -/
def recoverContent (e : GenError) : String :=
  match e.bodyDict with
  | some fg =>
    match fg with
    | some f => if f = "" then "Analysis failed." else f
    | none => "Analysis failed."
  | none =>
    if strIn failedGenMarker e.estr then
      match e.strMatch with
      | some m => m
      | none => "Analysis failed."
    else "Analysis failed."

/-- The repository fields the analysis context uses.  `name = none`
models a missing `name` key (`repo_data.get('name', 'Unknown')`). -/
structure AnalysisRepoData where
  name : Option String
  deriving DecidableEq, Repr

/-- `ExplorerAgent.analyze_repository` from the generation step on:
`run` is the outcome of `self.analyst_agent.run(context)`.  A success is
returned as-is; on an exception the recovery yields either the recovered
record (neutral complexity 5) or the terminal failure record
(complexity 0, no technologies).  The function is total: no exception
escapes to the aggregator. -/
def analyze_repository (rd : AnalysisRepoData)
    (run : Except GenError RepoAnalysis) : RepoAnalysis :=
  match run with
  | .ok a => a
  | .error e =>
    let content := recoverContent e
    if content ≠ "Analysis failed." then
      { name := rd.name.getD "Unknown",
        summary := "Recovered from raw model output.",
        technical_deconstruction := content,
        key_technologies := ["Inferred"],
        complexity_score := 5 }
    else
      { name := rd.name.getD "Unknown",
        summary := "Analysis failed or skipped.",
        technical_deconstruction :=
          "Could not analyze deeply. Error: " ++ pyTake e.estr 500 ++ "...",
        key_technologies := [],
        complexity_score := 0 }

/-- C7: a failed single-repository analysis never raises — for every
repository record and every generation failure the result is an ordinary
`RepoAnalysis`, and it is either (a) the recovered-text record with the
neutral complexity score 5 (when recoverable text is present in the
failure payload), or (b) the terminal analysis-failed record with
complexity score 0 and an empty technology list. -/
theorem C7_analysis_failure_degrades (rd : AnalysisRepoData) (e : GenError) :
    (recoverContent e ≠ "Analysis failed." ∧
      analyze_repository rd (.error e) =
        { name := rd.name.getD "Unknown",
          summary := "Recovered from raw model output.",
          technical_deconstruction := recoverContent e,
          key_technologies := ["Inferred"],
          complexity_score := 5 }) ∨
    (recoverContent e = "Analysis failed." ∧
      analyze_repository rd (.error e) =
        { name := rd.name.getD "Unknown",
          summary := "Analysis failed or skipped.",
          technical_deconstruction :=
            "Could not analyze deeply. Error: " ++ pyTake e.estr 500 ++ "...",
          key_technologies := [],
          complexity_score := 0 }) := by
  by_cases h : recoverContent e = "Analysis failed."
  · right
    refine ⟨h, ?_⟩
    unfold analyze_repository
    simp [h]
  · left
    refine ⟨h, ?_⟩
    unfold analyze_repository
    simp [h]

/-! ## Supporting facts about the commit-message extraction -/

/-- The embedded branch contributes no message on any page: either the
script tag is absent, or `json.loads` raises `NameError` (the module
never imports `json`) and the bare `except` swallows it. -/
theorem embeddedAttempt_nil (scr : Option (Option EmbeddedPayload)) :
    embeddedAttempt scr = [] := by
  cases scr <;> rfl

theorem tail_step_len (m2 : List String) (cont : List String → List String)
    (hm2 : m2.length ≤ 4) (hcont : m2.length < 4 → (cont m2).length ≤ 4) :
    (if 4 ≤ m2.length then m2 else cont m2).length ≤ 4 := by
  split <;> rename_i hcase
  · exact hm2
  · exact hcont (by omega)

theorem tail_step_nodup (m2 : List String) (cont : List String → List String)
    (hm2 : m2.Nodup) (hcont : m2.Nodup → (cont m2).Nodup) :
    (if 4 ≤ m2.length then m2 else cont m2).Nodup := by
  split
  · exact hm2
  · exact hcont hm2

theorem rowLoop_len (l : List (Option String)) : ∀ msgs : List String,
    msgs.length < 4 → (rowLoop l msgs).length ≤ 4 := by
  induction l with
  | nil =>
    intro msgs h
    unfold rowLoop
    omega
  | cons r rest ih =>
    intro msgs h
    cases r with
    | none =>
      simp only [rowLoop]
      exact tail_step_len msgs (rowLoop rest) (by omega) (fun hh => ih msgs hh)
    | some t =>
      simp only [rowLoop]
      refine tail_step_len _ (rowLoop rest) ?_ (fun hh => ih _ hh)
      split
      · simp only [List.length_append, List.length_cons, List.length_nil]
        omega
      · omega

theorem rowLoop_nodup (l : List (Option String)) : ∀ msgs : List String,
    msgs.Nodup → (rowLoop l msgs).Nodup := by
  induction l with
  | nil =>
    intro msgs h
    unfold rowLoop
    exact h
  | cons r rest ih =>
    intro msgs h
    cases r with
    | none =>
      simp only [rowLoop]
      exact tail_step_nodup msgs (rowLoop rest) h (fun hh => ih msgs hh)
    | some t =>
      simp only [rowLoop]
      refine tail_step_nodup _ (rowLoop rest) ?_ (fun hh => ih _ hh)
      split <;> rename_i hc
      · have hne : t ∉ msgs := by
          simp only [Bool.and_eq_true, Bool.not_eq_true'] at hc
          simpa using hc.2
        simp [List.nodup_append, h, hne]
      · exact h

theorem hashLoop_len (l : List String) : ∀ msgs : List String,
    msgs.length < 4 → (hashLoop l msgs).length ≤ 4 := by
  induction l with
  | nil =>
    intro msgs h
    unfold hashLoop
    omega
  | cons t rest ih =>
    intro msgs h
    simp only [hashLoop]
    refine tail_step_len _ (hashLoop rest) ?_ (fun hh => ih _ hh)
    split
    · simp only [List.length_append, List.length_cons, List.length_nil]
      omega
    · omega

theorem hashLoop_nodup (l : List String) : ∀ msgs : List String,
    msgs.Nodup → (hashLoop l msgs).Nodup := by
  induction l with
  | nil =>
    intro msgs h
    unfold hashLoop
    exact h
  | cons t rest ih =>
    intro msgs h
    simp only [hashLoop]
    refine tail_step_nodup _ (hashLoop rest) ?_ (fun hh => ih _ hh)
    split <;> rename_i hc
    · have hne : t ∉ msgs := by
        simp only [Bool.and_eq_true, Bool.not_eq_true'] at hc
        simpa using hc.2
      simp [List.nodup_append, h, hne]
    · exact h

/-- The extraction yields at most 4 pairwise-distinct messages. -/
theorem latestCommitMessages_bounded (cp : CommitsPage) :
    (latestCommitMessages cp).length ≤ 4 ∧ (latestCommitMessages cp).Nodup := by
  unfold latestCommitMessages
  rw [embeddedAttempt_nil,
      if_pos (by rfl : (([] : List String).isEmpty) = true)]
  constructor
  · split
    · dsimp only
      split
      · exact hashLoop_len cp.hashLinks [] (by simp)
      · exact rowLoop_len cp.rowLinks [] (by simp)
    · simp
  · split
    · dsimp only
      split
      · exact hashLoop_nodup cp.hashLinks [] List.nodup_nil
      · exact rowLoop_nodup cp.rowLinks [] List.nodup_nil
    · simp

/-! ## Supporting fact: the Top-Repositories section on raw node lists

On a node list that may contain falsy entries, the code takes the first
`max_repos` nodes first and then skips the falsy ones (`repos[:max_repos]`
then `if not repo: continue`), so the bullets are the present repositories
among the first `max_repos` nodes. -/

theorem repoSection_bullets_nodes (incl : Bool) (m : Nat) : ∀ ns : List (Option Repo),
    (ns.flatMap (fun o => match o with
        | none => []
        | some rp => repoItemLines incl m rp)).filter isBulletLine
      = (ns.filterMap id).map
          (fun rp => "- **" ++ pyStr rp.name ++ "**: " ++ pyStr rp.description)
  | [] => rfl
  | none :: t => by
    rw [List.flatMap_cons, List.filter_append, repoSection_bullets_nodes incl m t]
    rfl
  | some rp :: t => by
    rw [List.flatMap_cons, List.filter_append, repoItemLines_bullets incl m rp,
        repoSection_bullets_nodes incl m t]
    rfl

/-- On an arbitrary node list, the section's bullets are the truthy nodes
among the first `max_repos` entries, in delivered order. -/
theorem repoSectionLines_bullets_with_null_nodes (incl : Bool) (m k : Nat)
    (nodes : List (Option Repo)) :
    (repoSectionLines incl m k nodes).filter isBulletLine =
      ((nodes.take k).filterMap id).map
        (fun rp => "- **" ++ pyStr rp.name ++ "**: " ++ pyStr rp.description) := by
  unfold repoSectionLines
  rw [List.filter_cons, List.filter_cons, repoSection_bullets_nodes incl m (nodes.take k)]
  simp
